import Mathlib

/-!
Shallow embedding of `src/app.py` (Streamlit QR generator / serial QR scanner).

The repository keeps its state in `st.session_state`; we model that state as
an explicit `AppState` record threaded through the handlers.  Pure list and
string manipulation (the history log, UTF-8 decoding with `errors='ignore'`,
`str.strip`, pandas `to_csv`) is embedded as executable Lean functions;
the serial device and the wall clock are inputs supplied to each handler
(`ReadResult`, the `now` timestamp string, the connect success flag).
-/

/-- One row of the `historial_qr` DataFrame: columns `Fecha/Hora` and
`Contenido QR` (`actualizar_historial_qr`, app.py line 103). -/
structure ScanRecord where
  timestamp : String
  contenido : String
deriving DecidableEq, Repr

/-- Build a record from a (timestamp, content) pair. -/
def toRec (p : String × String) : ScanRecord :=
  { timestamp := p.1, contenido := p.2 }

/-- `actualizar_historial_qr` (app.py lines 100-107): prepend the new record
(`pd.concat([nuevo_registro, historial])`, newest-first) and truncate with
`head(100)` when the length exceeds 100.  The wall-clock timestamp taken from
`datetime.now()` is passed in as the `timestamp` argument. -/
def actualizar_historial_qr (timestamp texto_qr : String)
    (historial : List ScanRecord) : List ScanRecord :=
  let nuevo : ScanRecord := { timestamp := timestamp, contenido := texto_qr }
  let ampliado := nuevo :: historial
  if 100 < ampliado.length then ampliado.take 100 else ampliado

/-- Run a whole sequence of appends (oldest input first) through
`actualizar_historial_qr`, starting from history `h`. -/
def appendAll (ps : List (String × String)) (h : List ScanRecord) :
    List ScanRecord :=
  ps.foldl (fun acc p => actualizar_historial_qr p.1 p.2 acc) h

/-- `latest`: the newest record, i.e. `historial_qr.iloc[0]`
(app.py lines 214-216). -/
def latest (historial : List ScanRecord) : Option ScanRecord :=
  historial.head?

/-- `limpiar_historial` resets the log to the empty DataFrame
(app.py lines 142-145). -/
def limpiar_historial (historial : List ScanRecord) : List ScanRecord :=
  let _ := historial
  []

section HistoryLemmas

theorem actualizar_length_le (ts txt : String) (h : List ScanRecord) :
    (actualizar_historial_qr ts txt h).length ≤ 100 := by
  unfold actualizar_historial_qr
  dsimp only
  split
  · simp
  · omega

theorem appendAll_length_le (ps : List (String × String))
    (h : List ScanRecord) (hle : h.length ≤ 100) :
    (appendAll ps h).length ≤ 100 := by
  induction ps generalizing h with
  | nil => simpa [appendAll] using hle
  | cons p ps ih =>
      simp only [appendAll, List.foldl_cons] at *
      exact ih _ (actualizar_length_le p.1 p.2 h)

theorem actualizar_head (ts txt : String) (h : List ScanRecord) :
    (actualizar_historial_qr ts txt h).head? =
      some { timestamp := ts, contenido := txt } := by
  unfold actualizar_historial_qr
  dsimp only
  split <;> rfl

end HistoryLemmas

/-- The `serial.Serial` object stored in `st.session_state.serial_port`
(app.py lines 42-52): its port name, baud rate and `is_open` flag.  Framing
(8N1) and the 0.1 s timeout are fixed constants in the source and carry no
state, so they are not recorded. -/
structure SerialHandle where
  port : String
  baud : Nat
  is_open : Bool
deriving DecidableEq, Repr

/-- The mutable `st.session_state` fields the serial/scanner code touches
(app.py lines 18-23): `serial_port`, `reconnect_attempts`, `historial_qr`. -/
structure AppState where
  serial_port : Option SerialHandle
  reconnect_attempts : Nat
  historial_qr : List ScanRecord
deriving DecidableEq, Repr

/-- The Python guard `st.session_state.serial_port is not None and
st.session_state.serial_port.is_open` used before every serial operation. -/
def isOpen : Option SerialHandle → Bool
  | some h => h.is_open
  | none => false

/-- `iniciar_lectura_com(com_port, baud_rate)` (app.py lines 35-59).
If a handle is present and open it only prints an info message and returns,
touching nothing.  Otherwise it attempts `serial.Serial(...)`; the
environment's verdict is the `connect_ok` flag: on success the fresh open
handle is stored and `reconnect_attempts` reset to 0, on `SerialException`
`serial_port` is set to `None`. -/
def iniciar_lectura_com (com_port : String) (baud_rate : Nat)
    (connect_ok : Bool) (s : AppState) : AppState :=
  if isOpen s.serial_port then s
  else if connect_ok then
    { s with serial_port := some { port := com_port, baud := baud_rate, is_open := true },
             reconnect_attempts := 0 }
  else
    { s with serial_port := none }

/-- `detener_lectura_com()` (app.py lines 61-68): if a handle is present and
open, close it and set `serial_port` to `None`; otherwise only print an info
message (no state change). -/
def detener_lectura_com (s : AppState) : AppState :=
  if isOpen s.serial_port then { s with serial_port := none } else s

/-- Python's `str.strip()` whitespace test (Unicode whitespace as stripped by
CPython: ASCII space, `\t`, `\n`, `\r`, vertical tab, form feed, the
file/group/record/unit separators, NEL, NBSP and the Unicode space and line
separators). -/
def pyIsSpace (c : Char) : Bool :=
  c.toNat = 0x20 || c.toNat = 0x09 || c.toNat = 0x0a || c.toNat = 0x0d ||
  c.toNat = 0x0b || c.toNat = 0x0c ||
  (0x1c ≤ c.toNat && c.toNat ≤ 0x1f) || c.toNat = 0x85 || c.toNat = 0xa0 ||
  c.toNat = 0x1680 || (0x2000 ≤ c.toNat && c.toNat ≤ 0x200a) ||
  c.toNat = 0x2028 || c.toNat = 0x2029 || c.toNat = 0x202f ||
  c.toNat = 0x205f || c.toNat = 0x3000

/-- Python's `str.strip()`: drop leading and trailing whitespace. -/
def pyStrip (cs : List Char) : List Char :=
  ((cs.dropWhile pyIsSpace).reverse.dropWhile pyIsSpace).reverse

/-- CPython's `bytes.decode('utf-8', errors='ignore')` over a byte list
(each `Nat` is one byte, < 256).  A well-formed UTF-8 sequence decodes to its
scalar value; an ill-formed sequence's maximal valid subpart is consumed and
simply skipped (the `ignore` handler inserts nothing), and decoding resumes
at the offending byte.  The function is total: decoding never raises. -/
def utf8DecodeIgnoreAux : Nat → List Nat → List Char
  | 0, _ => []
  | _ + 1, [] => []
  | fuel + 1, b1 :: r1 =>
    if b1 < 0x80 then
      -- one-byte (ASCII)
      Char.ofNat b1 :: utf8DecodeIgnoreAux fuel r1
    else if b1 < 0xc2 then
      -- 0x80-0xbf: stray continuation; 0xc0/0xc1: overlong lead — skipped
      utf8DecodeIgnoreAux fuel r1
    else if b1 < 0xe0 then
      -- two-byte sequence
      match r1 with
      | [] => []
      | b2 :: r2 =>
        if 0x80 ≤ b2 && b2 < 0xc0 then
          Char.ofNat ((b1 - 0xc0) * 0x40 + (b2 - 0x80)) :: utf8DecodeIgnoreAux fuel r2
        else utf8DecodeIgnoreAux fuel (b2 :: r2)
    else if b1 < 0xf0 then
      -- three-byte sequence; 0xe0 and 0xed restrict the second byte so that
      -- overlong encodings and surrogates are rejected
      match r1 with
      | [] => []
      | b2 :: r2 =>
        if (if b1 = 0xe0 then 0xa0 ≤ b2 && b2 < 0xc0
            else if b1 = 0xed then 0x80 ≤ b2 && b2 < 0xa0
            else 0x80 ≤ b2 && b2 < 0xc0) then
          match r2 with
          | [] => []
          | b3 :: r3 =>
            if 0x80 ≤ b3 && b3 < 0xc0 then
              Char.ofNat ((b1 - 0xe0) * 0x1000 + (b2 - 0x80) * 0x40 + (b3 - 0x80))
                :: utf8DecodeIgnoreAux fuel r3
            else utf8DecodeIgnoreAux fuel (b3 :: r3)
        else utf8DecodeIgnoreAux fuel (b2 :: r2)
    else if b1 < 0xf5 then
      -- four-byte sequence; 0xf0 and 0xf4 restrict the second byte so that
      -- overlong encodings and values beyond U+10FFFF are rejected
      match r1 with
      | [] => []
      | b2 :: r2 =>
        if (if b1 = 0xf0 then 0x90 ≤ b2 && b2 < 0xc0
            else if b1 = 0xf4 then 0x80 ≤ b2 && b2 < 0x90
            else 0x80 ≤ b2 && b2 < 0xc0) then
          match r2 with
          | [] => []
          | b3 :: r3 =>
            if 0x80 ≤ b3 && b3 < 0xc0 then
              match r3 with
              | [] => []
              | b4 :: r4 =>
                if 0x80 ≤ b4 && b4 < 0xc0 then
                  Char.ofNat ((b1 - 0xf0) * 0x40000 + (b2 - 0x80) * 0x1000 +
                      (b3 - 0x80) * 0x40 + (b4 - 0x80))
                    :: utf8DecodeIgnoreAux fuel r4
                else utf8DecodeIgnoreAux fuel (b4 :: r4)
            else utf8DecodeIgnoreAux fuel (b3 :: r3)
        else utf8DecodeIgnoreAux fuel (b2 :: r2)
    else
      -- 0xf5-0xff: invalid lead byte — skipped
      utf8DecodeIgnoreAux fuel r1

/-- Entry point for decoding: the fuel, one unit per byte consumed at least,
is the length of the byte list, so it never runs out on the recursive
calls. -/
def utf8DecodeIgnore (bs : List Nat) : List Char :=
  utf8DecodeIgnoreAux bs.length bs

/-- What the serial device / pyserial reports to one `readline()` call
(app.py line 78): some bytes (possibly none before the timeout), a
`serial.SerialException`, or any other exception. -/
inductive ReadResult where
  | bytes (bs : List Nat)
  | serialExc
  | otherExc
deriving DecidableEq, Repr

/-- `leer_datos_com_streamlit()` (app.py lines 70-98), one poll.  Returns the
new state together with the line ingested this poll (`none` when nothing was
appended).  If the guard `serial_port and serial_port.is_open` fails the body
is skipped entirely.  Otherwise `readline()` yields `r`: on bytes, they are
decoded with `decode('utf-8', errors='ignore')` and stripped; a non-empty
result is appended to the history via `actualizar_historial_qr` with the
current wall-clock string `now`; empty bytes or an all-whitespace line leave
the state unchanged.  On `SerialException` the port is closed and
`serial_port` set to `None`; on any other exception `detener_lectura_com()`
is called.  Nothing is ever raised to the caller. -/
def leer_datos_com_streamlit (r : ReadResult) (now : String) (s : AppState) :
    AppState × Option String :=
  if isOpen s.serial_port then
    match r with
    | .bytes bs =>
      if bs.isEmpty then (s, none)   -- nothing read: short sleep, no change
      else
        let linea := pyStrip (utf8DecodeIgnore bs)
        if linea.isEmpty then (s, none)
        else
          ({ s with historial_qr :=
               actualizar_historial_qr now (String.mk linea) s.historial_qr },
           some (String.mk linea))
    | .serialExc => ({ s with serial_port := none }, none)
    | .otherExc => (detener_lectura_com s, none)
  else (s, none)

/-- pandas `to_csv` QUOTE_MINIMAL: a field is quoted iff it contains the
delimiter, the quote character, or a line-break character. -/
def pdNeedsQuoting (s : String) : Bool :=
  s.data.any fun c => c = ',' || c = '"' || c = '\n' || c = '\r'

/-- Double every quote character, as CSV quoting does. -/
def pdEscapeQuotes : List Char → List Char
  | [] => []
  | c :: cs =>
    if c = '"' then '"' :: '"' :: pdEscapeQuotes cs
    else c :: pdEscapeQuotes cs

/-- One CSV field under minimal quoting. -/
def csvField (s : String) : String :=
  if pdNeedsQuoting s then "\"" ++ String.mk (pdEscapeQuotes s.data) ++ "\""
  else s

/-- One data row of the exported CSV: the record's two columns joined by a
comma and terminated by a newline. -/
def csvRow (r : ScanRecord) : String :=
  csvField r.timestamp ++ "," ++ csvField r.contenido ++ "\n"

/-- `st.session_state.historial_qr.to_csv(index=False)` (app.py line 230):
the header row `Fecha/Hora,Contenido QR` followed by one data row per record
in the log's (newest-first) order.  The `.encode('utf-8')` step maps this
string to its UTF-8 bytes; we reason at the string level. -/
def export_csv (historial : List ScanRecord) : String :=
  "Fecha/Hora,Contenido QR\n" ++ String.join (historial.map csvRow)

/-- Modelled from the spec's words, for comparison with `export_csv`:
"serializes the full current ordering as CSV with header
`Fecha/Hora,Contenido QR`, one row per record" — each row being the
timestamp and content joined by a comma, in log order. -/
def export_csv_spec (historial : List ScanRecord) : String :=
  "Fecha/Hora,Contenido QR\n" ++
    String.join (historial.map fun r => r.timestamp ++ "," ++ r.contenido ++ "\n")

/-- An image artifact: what remains observable of a PIL image at this
boundary — pixel dimensions and container format. -/
structure QRImage where
  width : Nat
  height : Nat
  format : String
deriving DecidableEq, Repr

/-- Models the external `qrcode` library call chain `QRCode(...)`,
`add_data`, `make(fit=True)`, `make_image(...).convert('RGB')`
(app.py lines 119-128): some raw RGB raster whose side length depends on the
fitted version; the exact size is irrelevant because the caller resizes. -/
def qrcode_make_image (texto : String) : QRImage :=
  { width := 21 + 4 * (texto.length % 40) + 8,
    height := 21 + 4 * (texto.length % 40) + 8,
    format := "RGB" }

/-- `img.resize((w, h), Image.Resampling.LANCZOS)` (app.py line 129). -/
def image_resize (img : QRImage) (w h : Nat) : QRImage :=
  { img with width := w, height := h }

/-- `ImageEnhance.Contrast(img).enhance(1.2)` (app.py lines 130-131):
a pixel-value transform; dimensions and format are unchanged.  The 1.2
contrast factor only affects pixel values, which are outside this model. -/
def image_enhance_contrast (img : QRImage) : QRImage :=
  img

/-- `img_final.save(img_byte_arr, format='PNG')` (app.py line 135): the bytes
written are a PNG container for the image. -/
def image_save_png (img : QRImage) : QRImage :=
  { img with format := "PNG" }

/-- `generar_qr(texto)` (app.py lines 112-140): `if not texto` — the empty
string — warn and return `None` (no image); otherwise build the QR image,
resize it to 250×250, enhance contrast, and return it saved as PNG bytes. -/
def generar_qr (texto : String) : Option QRImage :=
  if texto = "" then none
  else
    some (image_save_png (image_enhance_contrast
      (image_resize (qrcode_make_image texto) 250 250)))

/-- The input sequence for the 101-append scenario: 101 pairwise distinct
(timestamp, content) records, oldest first. -/
def c2inputs : List (String × String) :=
  (List.range 101).map fun i => (Nat.repr i, Nat.repr i)

section ClaimTheorems

/-- C1: for every sequence of appends starting from a history within the cap,
the history length stays at most 100 after every operation; and whenever an
append would exceed the cap, `actualizar_historial_qr` keeps exactly the 100
newest records of the prepended list, dropping the oldest tail. -/
theorem C1_history_cap :
    (∀ (ps : List (String × String)) (h : List ScanRecord),
      h.length ≤ 100 → (appendAll ps h).length ≤ 100) ∧
    (∀ (ts txt : String) (h : List ScanRecord), 100 < h.length + 1 →
      actualizar_historial_qr ts txt h =
        (({ timestamp := ts, contenido := txt } : ScanRecord) :: h).take 100) := by
  constructor
  · exact fun ps h hle => appendAll_length_le ps h hle
  · intro ts txt h hgt
    unfold actualizar_historial_qr
    dsimp only
    rw [if_pos (by simpa using hgt)]

theorem C1_history_cap_witness :
    (appendAll [("t1", "a")] (List.replicate 100 (toRec ("t0", "v0")))).length ≤ 100 ∧
    actualizar_historial_qr "t" "x" (List.replicate 100 (toRec ("t0", "v0"))) =
      (({ timestamp := "t", contenido := "x" } : ScanRecord) ::
        List.replicate 100 (toRec ("t0", "v0"))).take 100 :=
  ⟨C1_history_cap.1 [("t1", "a")] _ (by simp),
   C1_history_cap.2 "t" "x" _ (by simp)⟩

set_option maxRecDepth 100000 in
/-- C2: appending the 101 records of `c2inputs` to an empty log leaves
exactly the 100 most recently appended records, in newest-first order
(the reverse of arrival order, truncated to 100), and the first (oldest)
record is absent. -/
theorem C2_101_appends :
    c2inputs.length = 101 ∧
    appendAll c2inputs [] = ((c2inputs.map toRec).reverse).take 100 ∧
    (appendAll c2inputs []).length = 100 ∧
    toRec ("0", "0") ∉ appendAll c2inputs [] := by
  refine ⟨by decide, by decide, by decide, by decide⟩

/-- C3 counterexample: on the byte sequence `[0xff, 0x41]` the decoder used
by `leer_datos_com_streamlit` returns just `"A"`: the undecodable byte
`0xff` is NOT replaced by the substitution character U+FFFD (the result has
length 1, not 2, and contains no U+FFFD). -/
theorem C3_substitution_cex :
    utf8DecodeIgnore [0xff, 0x41] = ['A'] ∧
    Char.ofNat 0xfffd ∉ utf8DecodeIgnore [0xff, 0x41] := by
  decide

/-- C3 amended: decoding never fails and tolerates undecodable bytes, but —
since the source uses `errors='ignore'` — an undecodable lead byte is
dropped from the output (decoding resumes after it), not replaced by a
substitution character. -/
theorem C3_ignore_drops (b : Nat) (bs : List Nat)
    (hb : (0x80 ≤ b ∧ b < 0xc2) ∨ 0xf5 ≤ b) :
    utf8DecodeIgnore (b :: bs) = utf8DecodeIgnore bs := by
  show utf8DecodeIgnoreAux (b :: bs).length (b :: bs) =
    utf8DecodeIgnoreAux bs.length bs
  rw [List.length_cons]
  simp only [utf8DecodeIgnoreAux]
  rcases hb with ⟨h1, h2⟩ | h
  · rw [if_neg (by omega), if_pos (by omega)]
  · rw [if_neg (by omega), if_neg (by omega), if_neg (by omega),
      if_neg (by omega), if_neg (by omega)]

theorem C3_ignore_drops_witness :
    utf8DecodeIgnore [0x80, 0x42] = utf8DecodeIgnore [0x42] :=
  C3_ignore_drops 0x80 [0x42] (Or.inl (by omega))

/-- C4: an I/O fault during a read on an open session closes the session
(`serial_port` becomes `None`) without touching the history and without
yielding a line; and on a session that is not open, any subsequent poll
returns no line and leaves the whole state unchanged (nothing is read,
nothing raised). -/
theorem C4_read_fault_closes :
    (∀ (s : AppState) (now : String), isOpen s.serial_port = true →
      (leer_datos_com_streamlit .serialExc now s).1.serial_port = none ∧
      (leer_datos_com_streamlit .serialExc now s).2 = none ∧
      (leer_datos_com_streamlit .serialExc now s).1.historial_qr =
        s.historial_qr) ∧
    (∀ (s : AppState) (r : ReadResult) (now : String),
      isOpen s.serial_port = false →
      leer_datos_com_streamlit r now s = (s, none)) := by
  constructor
  · intro s now hopen
    simp [leer_datos_com_streamlit, hopen]
  · intro s r now hclosed
    simp [leer_datos_com_streamlit, hclosed]

theorem C4_read_fault_closes_witness :
    (leer_datos_com_streamlit .serialExc "t"
      ⟨some ⟨"COM3", 9600, true⟩, 0, []⟩).1.serial_port = none ∧
    leer_datos_com_streamlit (.bytes [65]) "t" ⟨none, 0, []⟩ =
      (⟨none, 0, []⟩, none) :=
  ⟨(C4_read_fault_closes.1 ⟨some ⟨"COM3", 9600, true⟩, 0, []⟩ "t" rfl).1,
   C4_read_fault_closes.2 ⟨none, 0, []⟩ (.bytes [65]) "t" rfl⟩

/-- C5: a poll whose read line decodes to only whitespace characters (or to
nothing at all) appends no record: the entire state, the history log
included, is unchanged and no line is reported. -/
theorem C5_whitespace_no_append (s : AppState) (now : String) (bs : List Nat)
    (hws : ∀ c ∈ utf8DecodeIgnore bs, pyIsSpace c = true) :
    leer_datos_com_streamlit (.bytes bs) now s = (s, none) := by
  have hstrip : pyStrip (utf8DecodeIgnore bs) = [] := by
    unfold pyStrip
    rw [List.dropWhile_eq_nil_iff.mpr hws]
    rfl
  unfold leer_datos_com_streamlit
  split
  · dsimp only
    split
    · rfl
    · rw [hstrip]
      rfl
  · rfl

theorem C5_whitespace_no_append_witness :
    leer_datos_com_streamlit (.bytes [32, 13, 10]) "t"
      ⟨some ⟨"COM3", 9600, true⟩, 0, []⟩ =
      (⟨some ⟨"COM3", 9600, true⟩, 0, []⟩, none) :=
  C5_whitespace_no_append ⟨some ⟨"COM3", 9600, true⟩, 0, []⟩ "t"
    [32, 13, 10] (by decide)

/-- C6: after any non-empty sequence of at most 100 appends to an empty log,
`latest` (the front of the newest-first ordering) is the record built from
the last (most recent) appended input. -/
theorem C6_latest_is_newest (ps : List (String × String))
    (hne : ps ≠ []) (_hlen : ps.length ≤ 100) :
    latest (appendAll ps []) = ps.getLast?.map toRec := by
  rcases List.eq_nil_or_concat ps with h | ⟨qs, p, rfl⟩
  · exact absurd h hne
  · unfold appendAll latest
    rw [List.concat_eq_append, List.foldl_append, List.foldl_cons,
      List.foldl_nil, List.getLast?_concat, actualizar_head]
    rfl

theorem C6_latest_is_newest_witness :
    latest (appendAll [("t1", "a"), ("t2", "b")] []) = some (toRec ("t2", "b")) :=
  (C6_latest_is_newest [("t1", "a"), ("t2", "b")] (by decide) (by decide)).trans
    (by rfl)

/-- C7: on any log whose fields need no CSV quoting, `export_csv` produces
exactly the spec's serialization — the header `Fecha/Hora,Contenido QR`
followed by one `timestamp,content` row per record in log order; and on the
concrete two-record newest-first log of the claim it yields exactly those
two data rows in that order. -/
theorem C7_export_csv_rows :
    (∀ historial : List ScanRecord,
      (∀ r ∈ historial, pdNeedsQuoting r.timestamp = false ∧
        pdNeedsQuoting r.contenido = false) →
      export_csv historial = export_csv_spec historial) ∧
    export_csv [toRec ("2024-01-01 10:00:00", "ABC"),
        toRec ("2024-01-01 10:00:01", "XYZ")] =
      "Fecha/Hora,Contenido QR\n2024-01-01 10:00:00,ABC\n2024-01-01 10:00:01,XYZ\n" := by
  constructor
  · intro historial hclean
    unfold export_csv export_csv_spec
    have hrows : historial.map csvRow =
        historial.map fun r => r.timestamp ++ "," ++ r.contenido ++ "\n" := by
      induction historial with
      | nil => rfl
      | cons r t ih =>
          obtain ⟨h1, h2⟩ := hclean r (List.mem_cons_self r t)
          rw [List.map_cons, List.map_cons,
            ih fun x hx => hclean x (List.mem_cons_of_mem r hx)]
          unfold csvRow csvField
          rw [h1, h2]
          rfl
    rw [hrows]
  · rfl

theorem C7_export_csv_rows_witness :
    export_csv [toRec ("2024-01-01 10:00:00", "ABC"),
        toRec ("2024-01-01 10:00:01", "XYZ")] =
      export_csv_spec [toRec ("2024-01-01 10:00:00", "ABC"),
        toRec ("2024-01-01 10:00:01", "XYZ")] :=
  C7_export_csv_rows.1 _ (by decide)

/-- C8: `generar_qr` on the empty string fails (returns no image, the code's
realization of `EncodeError`), and on `"https://example.com"` succeeds with
a 250×250 raster saved as PNG. -/
theorem C8_generar_qr :
    generar_qr "" = none ∧
    generar_qr "https://example.com" =
      some { width := 250, height := 250, format := "PNG" } :=
  ⟨rfl, rfl⟩

/-- C9: `detener_lectura_com` is idempotent — applying it twice equals
applying it once; it never touches the history or the reconnect counter; it
closes the handle when the session is open; and when the session is not open
it is a complete no-op on the state. -/
theorem C9_disconnect_idempotent (s : AppState) :
    detener_lectura_com (detener_lectura_com s) = detener_lectura_com s ∧
    (detener_lectura_com s).historial_qr = s.historial_qr ∧
    (detener_lectura_com s).reconnect_attempts = s.reconnect_attempts ∧
    (isOpen s.serial_port = true →
      (detener_lectura_com s).serial_port = none) ∧
    (isOpen s.serial_port = false → detener_lectura_com s = s) := by
  cases hb : isOpen s.serial_port with
  | false =>
      have h0 : detener_lectura_com s = s := by
        unfold detener_lectura_com
        rw [if_neg (by simp [hb])]
      rw [h0]
      exact ⟨h0, rfl, rfl, fun ht => absurd ht (by decide), fun _ => rfl⟩
  | true =>
      have h1 : detener_lectura_com s = { s with serial_port := none } := by
        unfold detener_lectura_com
        rw [if_pos hb]
      have h2 : detener_lectura_com
          { s with serial_port := (none : Option SerialHandle) } =
          { s with serial_port := none } := rfl
      rw [h1, h2]
      exact ⟨rfl, rfl, rfl, fun _ => rfl, fun hf => absurd hf (by decide)⟩

theorem C9_disconnect_idempotent_witness :
    detener_lectura_com
        (detener_lectura_com ⟨some ⟨"COM3", 9600, true⟩, 2, []⟩) =
      detener_lectura_com ⟨some ⟨"COM3", 9600, true⟩, 2, []⟩ ∧
    (detener_lectura_com ⟨some ⟨"COM3", 9600, true⟩, 2, []⟩).serial_port =
      none :=
  ⟨(C9_disconnect_idempotent ⟨some ⟨"COM3", 9600, true⟩, 2, []⟩).1,
   (C9_disconnect_idempotent ⟨some ⟨"COM3", 9600, true⟩, 2, []⟩).2.2.2.1 rfl⟩

/-- C10: calling `iniciar_lectura_com` while the session is already open —
with any port, any baud rate, and whatever the device would answer — leaves
the entire state unchanged: no handle is closed or opened and the session
keeps its original configuration. -/
theorem C10_connect_while_open (s : AppState) (port : String) (baud : Nat)
    (connect_ok : Bool) (hopen : isOpen s.serial_port = true) :
    iniciar_lectura_com port baud connect_ok s = s := by
  unfold iniciar_lectura_com
  rw [if_pos hopen]

theorem C10_connect_while_open_witness :
    iniciar_lectura_com "COM4" 115200 false
      ⟨some ⟨"COM3", 9600, true⟩, 0, []⟩ =
      ⟨some ⟨"COM3", 9600, true⟩, 0, []⟩ :=
  C10_connect_while_open ⟨some ⟨"COM3", 9600, true⟩, 0, []⟩ "COM4" 115200
    false rfl

end ClaimTheorems
